import Mathlib

/-!
Shallow embedding of the Generic OnOff mesh node application
(`src/src/main.c` of babalneuve/bluetooth_mesh): the transition-time
byte codec, the OnOff server state machine (Set handler, timer callback,
Status composer), the client send path, and the self-provisioning /
key-binding sequence of `button_pressed`.

Machine integers are modelled as `Nat`/`Int` with explicit reductions
modulo `2^w` where C's conversions matter.
-/

/-- Zephyr's `SYS_FOREVER_MS` sentinel, `-1` as an `int32_t`. -/
def SYS_FOREVER_MS : Int := -1

/-- Zephyr's `BIT_MASK(n)` = `(1 << n) - 1`. -/
def BIT_MASK (n : Nat) : Nat := 2 ^ n - 1

/-- The four transition-time resolutions in milliseconds:
`{100, MSEC_PER_SEC, 10 * MSEC_PER_SEC, 10 * 60 * MSEC_PER_SEC}` (`time_res[]`). -/
def time_res : List Nat := [100, 1000, 10000, 600000]

/-- The value of a C `int32_t` expression reinterpreted through the usual
arithmetic conversions as a `uint32_t` (reduction modulo `2^32`). -/
def toUInt32 (ms : Int) : Nat := (ms % 4294967296).toNat

/-- A C `uint32_t` value passed to an `int32_t` parameter (wraps into the
signed range). -/
def uint32ToInt32 (n : Nat) : Int :=
  if n % 4294967296 < 2147483648 then ((n % 4294967296 : Nat) : Int)
  else ((n % 4294967296 : Nat) : Int) - 4294967296

/-- `model_time_decode` (main.c:60-70): split the byte into a 2-bit
resolution selector and a 6-bit step count; steps `0x3f` is the
indefinite sentinel, otherwise the duration is `steps * time_res[resolution]`. -/
def model_time_decode (val : Nat) : Int :=
  let resolution := (val >>> 6) &&& BIT_MASK 2
  let steps := val &&& BIT_MASK 6
  if steps = 0x3f then SYS_FOREVER_MS
  else ((steps * time_res.getD resolution 0 : Nat) : Int)

/-- The `for` loop of `model_time_encode` over `time_res` with its index:
skip resolution `r` while `ms >= BIT_MASK(6) * r`, else return
`DIV_ROUND_UP(ms, r) | (i << 6)` (the step count is stored in a `uint8_t`,
hence the `% 256`); falling off the end returns `0x3f`. -/
def model_time_encode_loop (m : Nat) : List (Nat × Nat) → Nat
  | [] => 0x3f
  | (i, r) :: rest =>
    if m ≥ BIT_MASK 6 * r then model_time_encode_loop m rest
    else (((m + r - 1) / r) % 256) ||| (i <<< 6)

/-- `model_time_encode` (main.c:72-89): `SYS_FOREVER_MS` maps to the
sentinel `0x3f`; otherwise the loop scans the resolutions smallest first.
The `int32_t` argument is compared and divided against `uint32_t`
operands, so it is converted modulo `2^32` first. -/
def model_time_encode (ms : Int) : Nat :=
  if ms = SYS_FOREVER_MS then 0x3f
  else model_time_encode_loop (toUInt32 ms) time_res.enum

/-- The `onoff` server state (main.c:45-51), without the embedded
`k_work_delayable` handle (timers are modelled as explicit data in the
operations below). `tid` is a `uint8_t`, `src` a `uint16_t`,
`transition_time` a `uint32_t`. -/
structure OnoffState where
  val : Bool
  tid : Nat
  src : Nat
  transition_time : Nat
deriving Repr, DecidableEq

/-- A C `bool` pushed into a byte / compared with an integer. -/
def boolByte (b : Bool) : Nat := if b then 1 else 0

/-- A received Set payload: mandatory `value` and `tid` bytes, and the
optional `(transition_time_byte, delay_5ms_units)` pair pulled only when
`buf->len` is nonzero after the first two bytes. -/
structure SetMsg where
  val : Nat
  tid : Nat
  ext : Option (Nat × Nat)
deriving Repr, DecidableEq

/-- `gen_onoff_set_unack` (main.c:134-166). `addr` is `ctx->addr`.
Returns the new `onoff` state and `some delay_ms` when
`k_work_reschedule(&onoff.work, K_MSEC(delay))` is called, `none` when the
message is dropped by the dedupe or no-op check. The C compares the raw
`val` byte against the `bool` field (which promotes to 0/1) and stores it
back through a `bool` conversion (nonzero becomes `true`); the decoded
`int32_t` transition time is stored into the `uint32_t` field. -/
def gen_onoff_set_unack (s : OnoffState) (addr : Nat) (m : SetMsg) :
    OnoffState × Option Nat :=
  let trans : Int := match m.ext with
    | some p => model_time_decode p.1
    | none => 0
  let delay : Nat := match m.ext with
    | some p => p.2 * 5
    | none => 0
  if m.tid = s.tid ∧ addr = s.src then (s, none)
  else if m.val = boolByte s.val then (s, none)
  else ({ val := m.val != 0, tid := m.tid, src := addr,
          transition_time := toUInt32 trans }, some delay)

/-- `onoff_timeout` (main.c:114-124). Returns the new state, the value
passed to `board_led_set`, and `some t` when the work item is rescheduled
for `t` milliseconds. A firing with nonzero `transition_time` turns the
LED on (`board_led_set(true)`), re-arms for `transition_time` and zeroes
it; a firing with zero `transition_time` sets the LED to `onoff.val`. -/
def onoff_timeout (s : OnoffState) : OnoffState × Bool × Option Nat :=
  if s.transition_time ≠ 0 then
    ({ s with transition_time := 0 }, true, some s.transition_time)
  else (s, s.val, none)

/-- `onoff_status_send` (main.c:91-112), returning the Status payload
bytes. `timer_remaining` is
`k_ticks_to_ms_floor32(k_work_delayable_remaining_get(&onoff.work))`; the
`uint32_t` sum with `onoff.transition_time` wraps modulo `2^32` and is
passed to `model_time_encode`'s `int32_t` parameter. -/
def onoff_status_payload (s : OnoffState) (timer_remaining : Nat) : List Nat :=
  let remaining := (timer_remaining + s.transition_time) % 4294967296
  if remaining ≠ 0 then
    [boolByte (!s.val), boolByte s.val, model_time_encode (uint32ToInt32 remaining)]
  else
    [boolByte s.val]

/-- `BT_MESH_KEY_UNUSED`, the sentinel marking an unbound key slot. -/
def BT_MESH_KEY_UNUSED : Nat := 0xffff

/-- Slot 0 of the `keys[]` arrays of the OnOff server model (`models[2]`)
and the OnOff client model (`models[3]`). -/
structure ModelKeys where
  srv_key0 : Nat
  cli_key0 : Nat
deriving Repr, DecidableEq

/-- The unprovisioned branch of `button_pressed` (main.c:307-335), with
the transport primitives `bt_mesh_provision` and `bt_mesh_app_key_add`
abstracted by their success/failure outcome: a failing step returns with
the key slots untouched, and only after both succeed are
`models[2].keys[0]` and `models[3].keys[0]` set to app-key index 0. -/
def button_pressed_provision (keys : ModelKeys)
    (provision_ok : Bool) (app_key_add_ok : Bool) : ModelKeys :=
  if ¬provision_ok then keys
  else if ¬app_key_add_ok then keys
  else { srv_key0 := 0, cli_key0 := 0 }

/-- `-ENOENT` as returned by `gen_onoff_send` when the client model has no
bound application key. -/
def ENOENT : Int := 2

/-- `gen_onoff_send` (main.c:266-289). `cli_key0` is `models[3].keys[0]`
(used as `ctx.app_idx`); if it is still `BT_MESH_KEY_UNUSED` the function
returns `-ENOENT` without building or sending any message; otherwise the
Set-Unacknowledged payload `[val, tid, src_lo, src_hi]` is handed to
`bt_mesh_model_send`. `tid` is a `uint8_t` static counter. -/
def gen_onoff_send (cli_key0 : Nat) (val : Bool) (src : Nat) (tid : Nat) :
    Except Int (List Nat) :=
  if cli_key0 = BT_MESH_KEY_UNUSED then Except.error (-ENOENT)
  else Except.ok [boolByte val, tid % 256, src % 256, (src / 256) % 256]

/-- C1 counterexample: in the state `val = false, transition_time = 1000`
(a transition towards off), the timer firing calls `board_led_set(true)`,
not `board_led_set(false)`: the physical output is NOT driven to the new
(target) on/off value, contrary to the claim. -/
theorem C1_counterexample :
    (onoff_timeout ⟨false, 0, 0, 1000⟩).2.1 = true ∧
    (OnoffState.mk false 0 0 1000).val = false ∧
    (onoff_timeout ⟨false, 0, 0, 1000⟩).2.1 ≠ (OnoffState.mk false 0 0 1000).val := by
  decide

/-- C1 (amended): a firing with nonzero recorded transition duration
drives the physical output on (`board_led_set(true)`, regardless of the
target value), re-arms the timer for exactly the recorded duration and
clears the recorded duration to zero; a firing with zero recorded
duration sets the output to the stored value. -/
theorem C1_timeout_amended (s : OnoffState) :
    (s.transition_time ≠ 0 →
      onoff_timeout s = ({ s with transition_time := 0 }, true, some s.transition_time)) ∧
    (s.transition_time = 0 →
      onoff_timeout s = (s, s.val, none)) := by
  refine ⟨fun h => ?_, fun h => ?_⟩ <;> simp [onoff_timeout, h]

/-- C1 amended witness: concrete instance of both firings. -/
theorem C1_timeout_amended_witness :
    onoff_timeout ⟨false, 0, 0, 1000⟩ = (⟨false, 0, 0, 0⟩, true, some 1000) ∧
    onoff_timeout ⟨true, 1, 1, 0⟩ = (⟨true, 1, 1, 0⟩, true, none) :=
  ⟨(C1_timeout_amended ⟨false, 0, 0, 1000⟩).1 (by decide),
   (C1_timeout_amended ⟨true, 1, 1, 0⟩).2 (by decide)⟩

/-- C4: a Set whose transaction id equals `onoff.tid` and whose sender
address equals `onoff.src` is dropped by the dedupe check: the state is
returned unchanged and no timer is scheduled, regardless of the requested
value. -/
theorem C4_dedupe_no_change (s : OnoffState) (addr : Nat) (m : SetMsg)
    (htid : m.tid = s.tid) (hsrc : addr = s.src) :
    gen_onoff_set_unack s addr m = (s, none) := by
  simp [gen_onoff_set_unack, htid, hsrc]

/-- C4 witness: state `tid = 5, src = 0x0010`, Set with
`value = 0 ≠ current, tid = 5, source = 0x0010` changes nothing. -/
theorem C4_dedupe_no_change_witness :
    gen_onoff_set_unack ⟨true, 5, 16, 0⟩ 16 ⟨0, 5, none⟩ = (⟨true, 5, 16, 0⟩, none) :=
  C4_dedupe_no_change ⟨true, 5, 16, 0⟩ 16 ⟨0, 5, none⟩ (by decide) (by decide)

/-- C5: a Set whose requested value byte equals the current value is
dropped (by the no-op check when it reaches it, or by the dedupe check
before it): the state is returned unchanged and no timer is scheduled,
for every transaction id and sender address. -/
theorem C5_noop_no_change (s : OnoffState) (addr : Nat) (m : SetMsg)
    (hval : m.val = boolByte s.val) :
    gen_onoff_set_unack s addr m = (s, none) := by
  by_cases h : m.tid = s.tid ∧ addr = s.src
  · simp [gen_onoff_set_unack, h]
  · simp [gen_onoff_set_unack, h, hval]

/-- C5 witness: state `val = true, tid = 5, src = 0x0010`, Set with
`value = 1, tid = 99, source = 0x0099` changes nothing. -/
theorem C5_noop_no_change_witness :
    gen_onoff_set_unack ⟨true, 5, 16, 0⟩ 153 ⟨1, 99, none⟩ = (⟨true, 5, 16, 0⟩, none) :=
  C5_noop_no_change ⟨true, 5, 16, 0⟩ 153 ⟨1, 99, none⟩ (by decide)

/-- C6: a Set passing both the dedupe and the no-op checks is accepted:
the handler records the message's tid and the sender address, stores the
requested value (through C's bool conversion) and the decoded transition
duration, and schedules the timer for `delay_5ms_units * 5` ms, with
transition 0 and delay 0 when the optional bytes are absent. -/
theorem C6_accept (s : OnoffState) (addr : Nat) (m : SetMsg)
    (hdedupe : ¬(m.tid = s.tid ∧ addr = s.src))
    (hval : m.val ≠ boolByte s.val) :
    gen_onoff_set_unack s addr m =
      ({ val := m.val != 0, tid := m.tid, src := addr,
         transition_time := toUInt32 (match m.ext with
           | some p => model_time_decode p.1
           | none => 0) },
       some (match m.ext with
         | some p => p.2 * 5
         | none => 0)) := by
  rcases m with ⟨v, t, ext⟩
  cases ext <;> simp_all [gen_onoff_set_unack]

/-- C6 witness: from `val = false`, a Set `(value = 1, tid = 1,
source = 0x0001)` with transition byte `0x0a` (1000 ms) and delay byte 10
(50 ms) stores `⟨true, 1, 1, 1000⟩` and schedules the timer for 50 ms. -/
theorem C6_accept_witness :
    gen_onoff_set_unack ⟨false, 0, 0, 0⟩ 1 ⟨1, 1, some (10, 10)⟩ =
      (⟨true, 1, 1, 1000⟩, some 50) :=
  C6_accept ⟨false, 0, 0, 0⟩ 1 ⟨1, 1, some (10, 10)⟩ (by decide) (by decide)

/-- C7 counterexample: a Set carrying the indefinite transition byte
`0x3f` is accepted and stores `transition_time = 0xFFFFFFFF` (the C pours
the `int32_t` value `SYS_FOREVER_MS = -1` into the `uint32_t` field), so
the state is reachable; with 1 ms left on the armed delay timer, the
`uint32_t` sum `1 + 0xFFFFFFFF` wraps to 0 and `onoff_status_send` emits
the 1-byte "no transition" payload although a transition is outstanding
(`transition_time ≠ 0`), refuting the claimed 3-byte shape and the
remaining-time arithmetic. -/
theorem C7_counterexample :
    gen_onoff_set_unack ⟨false, 0, 0, 0⟩ 1 ⟨1, 1, some (63, 0)⟩ =
      (⟨true, 1, 1, 4294967295⟩, some 0) ∧
    (OnoffState.mk true 1 1 4294967295).transition_time ≠ 0 ∧
    onoff_status_payload ⟨true, 1, 1, 4294967295⟩ 1 = [1] ∧
    (onoff_status_payload ⟨true, 1, 1, 4294967295⟩ 1).length = 1 := by
  decide

/-- C7 (amended): the Status payload is exactly 1 byte (the present
value) when the `uint32_t` sum of the timer remainder and the recorded
transition duration, taken modulo `2^32`, is zero, and exactly 3 bytes
(present, target, encoded remaining) when that wrapped sum is nonzero,
the remaining-time byte encoding the wrapped sum; whenever the true sum
fits in 32 bits — in particular in every state whose stored duration came
from a finite transition byte — the wrapped sum is the time left on the
active timer plus the still-pending recorded transition duration, as the
claim states. -/
theorem C7_status_shape_amended (s : OnoffState) (t : Nat) :
    ((t + s.transition_time) % 4294967296 = 0 →
      onoff_status_payload s t = [boolByte s.val] ∧
      (onoff_status_payload s t).length = 1) ∧
    ((t + s.transition_time) % 4294967296 ≠ 0 →
      onoff_status_payload s t =
        [boolByte (!s.val), boolByte s.val,
         model_time_encode (uint32ToInt32 ((t + s.transition_time) % 4294967296))] ∧
      (onoff_status_payload s t).length = 3) ∧
    (t + s.transition_time < 4294967296 →
      (t + s.transition_time = 0 →
        onoff_status_payload s t = [boolByte s.val]) ∧
      (t + s.transition_time ≠ 0 →
        onoff_status_payload s t =
          [boolByte (!s.val), boolByte s.val,
           model_time_encode (uint32ToInt32 (t + s.transition_time))])) := by
  refine ⟨fun h => ?_, fun h => ?_, fun hfit => ⟨fun h => ?_, fun h => ?_⟩⟩ <;>
    simp [onoff_status_payload, Nat.mod_eq_of_lt, *]

/-- C7 amended witness: idle state gives 1 byte; 1000 ms pending gives
3 bytes whose last byte encodes the sum. -/
theorem C7_status_shape_amended_witness :
    (onoff_status_payload ⟨true, 0, 0, 0⟩ 0 = [1] ∧
      (onoff_status_payload ⟨true, 0, 0, 0⟩ 0).length = 1) ∧
    (onoff_status_payload ⟨true, 0, 0, 1000⟩ 0 =
        [0, 1, model_time_encode (uint32ToInt32 ((0 + 1000) % 4294967296))] ∧
      (onoff_status_payload ⟨true, 0, 0, 1000⟩ 0).length = 3) :=
  ⟨(C7_status_shape_amended ⟨true, 0, 0, 0⟩ 0).1 (by decide),
   (C7_status_shape_amended ⟨true, 0, 0, 1000⟩ 0).2.1 (by decide)⟩

/-- C10: whenever the computed remaining time is nonzero, the 3-byte
Status payload's present-value byte is the logical negation of the stored
value and its target-value byte is the stored value. -/
theorem C10_status_present_complement (s : OnoffState) (t : Nat)
    (h : (t + s.transition_time) % 4294967296 ≠ 0) :
    (onoff_status_payload s t).take 2 = [boolByte (!s.val), boolByte s.val] ∧
    (onoff_status_payload s t).length = 3 := by
  simp [onoff_status_payload, h]

/-- C10 witness: a pending transition towards `false` reports present = 1,
target = 0. -/
theorem C10_status_present_complement_witness :
    (onoff_status_payload ⟨false, 0, 0, 2000⟩ 0).take 2 = [1, 0] ∧
    (onoff_status_payload ⟨false, 0, 0, 2000⟩ 0).length = 3 :=
  C10_status_present_complement ⟨false, 0, 0, 2000⟩ 0 (by decide)

/-- C8: starting from unbound key slots, if the provision step or the
app-key-add step fails, both OnOff models' key slot 0 still holds
`BT_MESH_KEY_UNUSED`; binding to app-key index 0 happens exactly when
both steps succeeded. -/
theorem C8_provision_atomic (keys : ModelKeys) (p a : Bool)
    (hsrv : keys.srv_key0 = BT_MESH_KEY_UNUSED)
    (hcli : keys.cli_key0 = BT_MESH_KEY_UNUSED) :
    (¬(p = true ∧ a = true) →
      (button_pressed_provision keys p a).srv_key0 = BT_MESH_KEY_UNUSED ∧
      (button_pressed_provision keys p a).cli_key0 = BT_MESH_KEY_UNUSED) ∧
    (p = true → a = true →
      button_pressed_provision keys p a = ⟨0, 0⟩) := by
  cases p <;> cases a <;> simp_all [button_pressed_provision]

/-- C8 witness: a failing app-key-add leaves both slots unbound. -/
theorem C8_provision_atomic_witness :
    (button_pressed_provision ⟨0xffff, 0xffff⟩ true false).srv_key0 = BT_MESH_KEY_UNUSED ∧
    (button_pressed_provision ⟨0xffff, 0xffff⟩ true false).cli_key0 = BT_MESH_KEY_UNUSED :=
  (C8_provision_atomic ⟨0xffff, 0xffff⟩ true false (by decide) (by decide)).1 (by decide)

/-- C9: when the client model's key slot still holds the unused sentinel,
`gen_onoff_send` fails with `-ENOENT` and no message is handed to the
transport (the `Except.ok` payload is never produced). -/
theorem C9_unbound_send (k : Nat) (val : Bool) (src tid : Nat)
    (h : k = BT_MESH_KEY_UNUSED) :
    gen_onoff_send k val src tid = Except.error (-ENOENT) := by
  simp [gen_onoff_send, h]

/-- C9 witness: sending with the sentinel key index fails. -/
theorem C9_unbound_send_witness :
    gen_onoff_send 0xffff true 291 0 = Except.error (-ENOENT) :=
  C9_unbound_send 0xffff true 291 0 (by decide)

/-- C2 counterexample: the finite duration 6250 ms is encoded with
resolution 100 ms (the loop accepts any `ms < 63 * res`), giving step
count `ceil(6250/100) = 63 > 62` — the indefinite sentinel `0x3f`, which
decodes to `SYS_FOREVER_MS` instead of a finite duration. Under the
claim, the smallest resolution covering 6250 ms within 62 steps is 1 s
and the byte would be `7 | (1 << 6)`. -/
theorem C2_counterexample :
    model_time_encode 6250 = 0x3f ∧
    model_time_encode 6250 &&& BIT_MASK 6 = 63 ∧
    model_time_decode (model_time_encode 6250) = SYS_FOREVER_MS := by
  decide

/-- Unfolding `model_time_encode` at a nonnegative in-range argument. -/
theorem model_time_encode_ofNat (m : Nat) (h : m < 4294967296) :
    model_time_encode (m : Int) = model_time_encode_loop m time_res.enum := by
  have h1 : (m : Int) ≠ SYS_FOREVER_MS := by
    simp only [SYS_FOREVER_MS]; omega
  have h2 : toUInt32 (m : Int) = m := by
    simp only [toUInt32]
    rw [Int.emod_eq_of_lt (by positivity) (by exact_mod_cast h)]
    simp
  rw [model_time_encode, if_neg h1, h2]

/-- C2 (amended): for every finite duration below the top of the encoding
range, the encoder selects the smallest resolution `r` with
`d < 63 * r` and computes the step count by ceiling division; the step
count can reach 63 (colliding with the indefinite sentinel) exactly when
the duration exceeds 62 steps at that resolution, and stays at most 62
whenever `d ≤ 62 * r`; durations at or above `63 * 600000` ms encode as
the sentinel; the decoder multiplies the step count by the resolution's
millisecond value, or signals indefinite for step count 63. -/
theorem C2_codec_amended :
    (∀ m : Nat, m < 63 * 600000 →
      ∃ i, ∃ hi : i < 4,
        (∀ j, j < i → 63 * time_res.getD j 0 ≤ m) ∧
        m < 63 * time_res.getD i 0 ∧
        model_time_encode (m : Int) =
          ((m + time_res.getD i 0 - 1) / time_res.getD i 0) ||| (i <<< 6) ∧
        (m + time_res.getD i 0 - 1) / time_res.getD i 0 ≤ 63 ∧
        (m ≤ 62 * time_res.getD i 0 →
          (m + time_res.getD i 0 - 1) / time_res.getD i 0 ≤ 62)) ∧
    (∀ m : Nat, 63 * 600000 ≤ m → m < 4294967296 →
      model_time_encode (m : Int) = 0x3f) ∧
    (∀ b : Nat, b &&& BIT_MASK 6 = 63 →
      model_time_decode b = SYS_FOREVER_MS) ∧
    (∀ b : Nat, b &&& BIT_MASK 6 ≠ 63 →
      model_time_decode b =
        (((b &&& BIT_MASK 6) * time_res.getD ((b >>> 6) &&& BIT_MASK 2) 0 : Nat) : Int)) := by
  have henum : time_res.enum = [(0, 100), (1, 1000), (2, 10000), (3, 600000)] := rfl
  refine ⟨fun m hm => ?_, fun m hm hfit => ?_, fun b hb => ?_, fun b hb => ?_⟩
  · rw [model_time_encode_ofNat m (by omega), henum]
    by_cases h0 : m < 6300
    · refine ⟨0, by omega, by omega, by simp [time_res]; omega, ?_, ?_, ?_⟩
      · simp only [model_time_encode_loop, BIT_MASK, time_res]
        norm_num
        rw [if_neg (by omega)]
        have : (m + 99) / 100 % 256 = (m + 99) / 100 := Nat.mod_eq_of_lt (by omega)
        simp [this]
      · simp [time_res]; omega
      · simp [time_res]; omega
    · by_cases h1 : m < 63000
      · refine ⟨1, by omega, ?_, by simp [time_res]; omega, ?_, ?_, ?_⟩
        · intro j hj
          interval_cases j
          simp [time_res]; omega
        · simp only [model_time_encode_loop, BIT_MASK, time_res]
          norm_num
          rw [if_pos (by omega), if_neg (by omega)]
          have : (m + 999) / 1000 % 256 = (m + 999) / 1000 := Nat.mod_eq_of_lt (by omega)
          simp [this]
        · simp [time_res]; omega
        · simp [time_res]; omega
      · by_cases h2 : m < 630000
        · refine ⟨2, by omega, ?_, by simp [time_res]; omega, ?_, ?_, ?_⟩
          · intro j hj
            interval_cases j <;> simp [time_res] <;> omega
          · simp only [model_time_encode_loop, BIT_MASK, time_res]
            norm_num
            rw [if_pos (by omega), if_pos (by omega), if_neg (by omega)]
            have : (m + 9999) / 10000 % 256 = (m + 9999) / 10000 :=
              Nat.mod_eq_of_lt (by omega)
            simp [this]
          · simp [time_res]; omega
          · simp [time_res]; omega
        · refine ⟨3, by omega, ?_, by simp [time_res]; omega, ?_, ?_, ?_⟩
          · intro j hj
            interval_cases j <;> simp [time_res] <;> omega
          · simp only [model_time_encode_loop, BIT_MASK, time_res]
            norm_num
            rw [if_pos (by omega), if_pos (by omega), if_pos (by omega), if_neg (by omega)]
            have : (m + 599999) / 600000 % 256 = (m + 599999) / 600000 :=
              Nat.mod_eq_of_lt (by omega)
            simp [this]
          · simp [time_res]; omega
          · simp [time_res]; omega
  · rw [model_time_encode_ofNat m hfit, henum]
    simp only [model_time_encode_loop, BIT_MASK]
    norm_num
    rw [if_pos (by omega), if_pos (by omega), if_pos (by omega), if_pos (by omega)]
  · simp [model_time_decode, BIT_MASK] at hb ⊢
    simp [hb]
  · simp [model_time_decode, BIT_MASK] at hb ⊢
    simp [hb]

/-- C2 amended witness: bytes with step field 63 decode to the indefinite
marker, at every resolution. -/
theorem C2_codec_amended_witness :
    model_time_decode 63 = SYS_FOREVER_MS ∧
    model_time_decode 255 = SYS_FOREVER_MS :=
  ⟨C2_codec_amended.2.2.1 63 (by decide), C2_codec_amended.2.2.1 255 (by decide)⟩

/-- C3: for every duration expressible exactly as `k * r` with
`0 ≤ k ≤ 62` and `r` one of the four resolutions, decoding the encoding
returns the duration unchanged. -/
theorem C3_roundtrip (k r : Nat) (hk : k ≤ 62) (hr : r ∈ time_res) :
    model_time_decode (model_time_encode ((k * r : Nat) : Int)) = ((k * r : Nat) : Int) := by
  have aux : ∀ (k : Fin 63) (i : Fin 4),
      model_time_decode (model_time_encode ((k.val * time_res.get i : Nat) : Int)) =
        ((k.val * time_res.get i : Nat) : Int) := by decide
  fin_cases hr
  · exact aux ⟨k, by omega⟩ ⟨0, by omega⟩
  · exact aux ⟨k, by omega⟩ ⟨1, by omega⟩
  · exact aux ⟨k, by omega⟩ ⟨2, by omega⟩
  · exact aux ⟨k, by omega⟩ ⟨3, by omega⟩

/-- C3 witness: 5000 ms = 5 steps of 1 s round-trips. -/
theorem C3_roundtrip_witness :
    model_time_decode (model_time_encode ((5 * 1000 : Nat) : Int)) = ((5 * 1000 : Nat) : Int) :=
  C3_roundtrip 5 1000 (by decide) (by decide)
